import Mathlib

/-!
Verification development for the nockbot repository (src/bot.py, src/scraper.py,
src/config.py): a Telegram bot that polls a chain RPC endpoint, derives mining
metrics, and sends threshold-crossing alerts to subscribers.

Shallow embedding notes:
* Python ints are modelled as `ℤ` (or `ℕ` where only naturals occur).
* Python floats are modelled as `ℚ`: every float operation relevant to the
  claims is a division, comparison or sum whose branch structure does not
  depend on rounding, so the rational embedding is faithful to the branch
  behaviour of the source.
* `dict.get(key, default)` on possibly missing JSON fields is modelled with
  `Option` fields and `Option.getD`.
* Python dicts keyed by ids are modelled as association lists with
  first-match lookup and replace-in-place insertion (`dlookup` / `dinsert` /
  `derase`), which matches dict semantics since dict keys are unique.
* Display strings that are either a numeric rendering or the sentinel "N/A"
  are modelled by `StrVal`: `.na` is the "N/A" branch of the source and
  `.num q` is the branch that renders the number `q` (the decimal formatting
  itself is presentation and carries no information beyond `q`).
-/

/-- A rendered output field of the metrics calculator: either the sentinel
string "N/A" or a numeric rendering of the payload `q`. -/
inductive StrVal
  | na
  | num (q : ℚ)
deriving DecidableEq

/-- Block fields consumed by `_calculate_metrics` in src/scraper.py.
`none` models a missing JSON key; reads use `Option.getD 0`, mirroring
`block.get("timestamp", 0)` etc. -/
structure Block where
  timestamp : Option ℤ
  accumulatedWork : Option ℤ
  epochCounter : Option ℤ
deriving DecidableEq

/-- `NockBlocksAPI.BLOCKS_PER_EPOCH` in src/scraper.py. -/
def BLOCKS_PER_EPOCH : ℤ := 2016

/-- `NockBlocksAPI.TARGET_BLOCK_TIME` in src/scraper.py (600 seconds). -/
def TARGET_BLOCK_TIME : ℤ := 600

/-- `time_diff = latest_ts - first_ts` in `_calculate_metrics`. -/
def time_diff_of (first_block latest_block : Block) : ℤ :=
  latest_block.timestamp.getD 0 - first_block.timestamp.getD 0

/-- `work_diff = latest_work - first_work` in `_calculate_metrics`. -/
def work_diff_of (first_block latest_block : Block) : ℤ :=
  latest_block.accumulatedWork.getD 0 - first_block.accumulatedWork.getD 0

/-- `avg_block_time_seconds` local of `_calculate_metrics`:
`time_diff / num_intervals` when both are positive, else 0. -/
def avg_block_time_seconds_of (first_block latest_block : Block) (num_intervals : ℤ) : ℚ :=
  if time_diff_of first_block latest_block > 0 ∧ num_intervals > 0 then
    (time_diff_of first_block latest_block : ℚ) / (num_intervals : ℚ)
  else 0

/-- `epoch_block` local of `_calculate_metrics`: `epoch_counter % BLOCKS_PER_EPOCH`,
promoted to a full epoch when the remainder is 0 and the counter positive. -/
def epoch_block_of (latest_block : Block) : ℤ :=
  let epoch_counter := latest_block.epochCounter.getD 0
  let e := epoch_counter % BLOCKS_PER_EPOCH
  if e = 0 ∧ epoch_counter > 0 then BLOCKS_PER_EPOCH else e

/-- The `MiningMetrics` dataclass of src/scraper.py restricted to the fields
the claims are about.  String fields whose source value is either "N/A" or a
numeric rendering are `StrVal`; `difficulty = .num w` stands for the source
string `2^{log2 w:.1f}` (the exponent of the rendered difficulty is log2 of
the payload), `avg_block_time = .num s` for the "Xm Ys" rendering of `s`
seconds, `est_time_to_adj = .num s` for the "Xd Yh" rendering of `s` seconds
and `next_adj = .num r` for the `next_adj_ratio` string rendering `r:.3f`x.
`proofrate_value` is the numeric MP/s field; the `proofrate` display string
of the source always renders `proofrate_value` (scaled as GP/MP/KP) and is
never "N/A", so it is not modelled separately. -/
structure MiningMetrics where
  difficulty : StrVal
  proofrate_value : ℚ
  epoch_percentage : ℚ
  blocks_to_adj : ℤ
  est_time_to_adj : StrVal
  avg_block_time : StrVal
  next_adj : StrVal
  latest_block : ℤ
deriving DecidableEq

/-- `NockBlocksAPI._calculate_metrics` from src/scraper.py. -/
def calculate_metrics (first_block latest_block : Block)
    (latest_height num_intervals : ℤ) : MiningMetrics :=
  let time_diff := time_diff_of first_block latest_block
  let work_diff := work_diff_of first_block latest_block
  let avgs := avg_block_time_seconds_of first_block latest_block num_intervals
  let eb := epoch_block_of latest_block
  { difficulty :=
      if num_intervals > 0 ∧ work_diff > 0 then
        .num ((work_diff : ℚ) / (num_intervals : ℚ))
      else .na
    proofrate_value :=
      if time_diff > 0 ∧ work_diff > 0 then
        ((work_diff : ℚ) / (time_diff : ℚ)) / 1000000
      else 0
    epoch_percentage := (eb : ℚ) / (BLOCKS_PER_EPOCH : ℚ) * 100
    blocks_to_adj := BLOCKS_PER_EPOCH - eb
    est_time_to_adj :=
      if avgs > 0 then .num (((BLOCKS_PER_EPOCH - eb : ℤ) : ℚ) * avgs) else .na
    avg_block_time := if avgs > 0 then .num avgs else .na
    next_adj := if avgs > 0 then .num ((TARGET_BLOCK_TIME : ℚ) / avgs) else .na
    latest_block := latest_height }

/-- Anchor block of the C3 test vector: timestamp 0, accumulated work 1000. -/
def c3_anchor : Block := ⟨some 0, some 1000, some 0⟩

/-- Tip block of the C3 test vector: timestamp 1000, accumulated work 2000. -/
def c3_tip : Block := ⟨some 1000, some 2000, some 0⟩

/-! ## Volume aggregator (src/scraper.py `fetch_24h_volume`) -/

/-- One entry of `output['seeds']`: `isCoinbase` (read with default `False`)
and `gift` (read with default 0). -/
structure Seed where
  isCoinbase : Bool
  gift : ℤ
deriving DecidableEq

/-- One entry of `tx['outputs']`. -/
structure TxOutput where
  seeds : List Seed
deriving DecidableEq

/-- One transaction object returned by `getTransactionsByBlockHeight`. -/
structure Tx where
  outputs : List TxOutput
deriving DecidableEq

/-- Block fields consumed by `fetch_24h_volume`: `height` and `txids`
(only emptiness of `txids` matters to the source). -/
structure VBlock where
  height : ℤ
  txids : List ℤ
deriving DecidableEq

/-- Result dict of `fetch_24h_volume`. -/
structure VolumeReport where
  volume_nock : ℚ
  tx_count : ℕ
  block_count : ℕ
deriving DecidableEq

/-- Inner seed loop body: `if seed.get('isCoinbase', False): continue;
total_volume += seed.get('gift', 0)`. -/
def seed_step (total : ℤ) (s : Seed) : ℤ :=
  if s.isCoinbase then total else total + s.gift

/-- Loop over `tx.get('outputs', [])` then `output.get('seeds', [])`. -/
def output_step (total : ℤ) (o : TxOutput) : ℤ :=
  o.seeds.foldl seed_step total

/-- Loop body for one transaction: `tx_count += 1` plus the output loops. -/
def tx_step (acc : ℤ × ℕ) (tx : Tx) : ℤ × ℕ :=
  (tx.outputs.foldl output_step acc.1, acc.2 + 1)

/-- Loop body for one examined height: `txs = await get_transactions...;
if not txs: continue` (a failed fetch or an empty list is skipped), else the
transaction loop. -/
def height_step (txsOf : ℤ → Option (List Tx)) (acc : ℤ × ℕ) (h : ℤ) : ℤ × ℕ :=
  match txsOf h with
  | none => acc
  | some [] => acc
  | some txs => txs.foldl tx_step acc

/-- `heights_with_txs = [b['height'] for b in blocks if b.get('txids')]`. -/
def examined_heights (blocks : List VBlock) : List ℤ :=
  (blocks.filter fun b => b.txids ≠ []).map VBlock.height

/-- `NockBlocksAPI.fetch_24h_volume` from src/scraper.py, with the RPC
responses abstracted: `blocksResp` is the `getBlocksByTimestampRange` result
(`none` = failure) and `txsOf h` the `getTransactionsByBlockHeight` result
for height `h`.  Mirrors `if not blocks: return None` and the accumulation
loops; `1 NOCK = 65536 nicks`. -/
def fetch_24h_volume (blocksResp : Option (List VBlock))
    (txsOf : ℤ → Option (List Tx)) : Option VolumeReport :=
  match blocksResp with
  | none => none
  | some blocks =>
    if blocks = [] then none
    else
      let acc := (examined_heights blocks).foldl (height_step txsOf) (0, 0)
      some ⟨(acc.1 : ℚ) / 65536, acc.2, blocks.length⟩

/-- Sum of the `gift` values of the non-coinbase seeds of a seed list
(specification-side formulation used by the C9 theorem). -/
def nonCoinbaseSum (seeds : List Seed) : ℤ :=
  ((seeds.filter fun s => !s.isCoinbase).map Seed.gift).sum

/-- Sum of `nonCoinbaseSum` over all outputs of a transaction. -/
def txOutputsSum (tx : Tx) : ℤ :=
  (tx.outputs.map fun o => nonCoinbaseSum o.seeds).sum

/-- Sum of `txOutputsSum` over a transaction list. -/
def txsGiftSum (txs : List Tx) : ℤ :=
  (txs.map txOutputsSum).sum

/-! ## Tip locator (spec §4.2; not present in src/, which only has the
direct `getTip` path in `fetch_metrics`) -/

/-- Modelled from the spec: the geometric upper-bound expansion step of the
tip locator, which is missing from src/ (src/scraper.py's `fetch_metrics`
only keeps the direct `getTip` path).  "expand the upper bound geometrically
(fixed step) until a probe returns empty"; the fixed geometric step is
modelled as doubling, and `fuel` bounds the number of expansion probes. -/
def expand_high (p : ℕ → Bool) : ℕ → ℕ → ℕ
  | high, 0 => high
  | high, fuel + 1 => if p high then expand_high p (2 * high) fuel else high

/-- Modelled from the spec: the binary-search loop of the tip locator,
missing from src/.  "repeatedly probe the midpoint (rounding up to guarantee
progress), moving low up when the probe succeeds and high down otherwise,
until low == high".  `fuel` bounds the iteration count; `tip_search` below
supplies enough fuel for the loop to reach `low == high`. -/
def tip_search_go (p : ℕ → Bool) : ℕ → ℕ → ℕ → ℕ
  | 0, low, _ => low
  | fuel + 1, low, high =>
    if low < high then
      let mid := (low + high + 1) / 2
      if p mid then tip_search_go p fuel mid high
      else tip_search_go p fuel low (mid - 1)
    else low

/-- Modelled from the spec: the binary search over an established bracket;
each iteration shrinks `high - low`, so `high - low` rounds of fuel reach
`low == high`. -/
def tip_search (p : ℕ → Bool) (low high : ℕ) : ℕ :=
  tip_search_go p (high - low) low high

/-- Modelled from the spec: the whole tip locator, missing from src/.
"if the lower probe returns no block, the search fails" (return "unknown",
here `none`); otherwise expand the upper bound and binary-search the
boundary, returning `low`. -/
def locate_tip (p : ℕ → Bool) (low0 high0 fuel : ℕ) : Option ℕ :=
  if p low0 then some (tip_search p low0 (expand_high p high0 fuel))
  else none

/-! ## Subscription store (src/bot.py) -/

/-- `TYPE_USER` / `TYPE_GROUP` in src/bot.py. -/
inductive SubType
  | user
  | group
deriving DecidableEq

/-- `LIFETIME_EXPIRY = 0` in src/bot.py. -/
def LIFETIME_EXPIRY : ℤ := 0

/-- A subscriber record dict.  `type`, `floor` and `ceiling` may be missing
keys (`none`); `expiry` is read everywhere with `.get("expiry", 0)`, so a
missing key behaves as 0 and is modelled as the value 0. -/
structure Subscriber where
  type : Option SubType
  expiry : ℤ
  floor : Option ℚ
  ceiling : Option ℚ
deriving DecidableEq

/-- A stored subscriber value: either the old bare-integer expiry format or
a record dict, mirroring the `isinstance(sub, dict)` checks of src/bot.py. -/
inductive SubVal
  | old (n : ℤ)
  | dict (s : Subscriber)
deriving DecidableEq

/-- Dict lookup on an association list (first match), modelling
`d.get(key)` on a Python dict. -/
def dlookup {α : Type} : List (ℤ × α) → ℤ → Option α
  | [], _ => none
  | (k, v) :: rest, key => if key = k then some v else dlookup rest key

/-- Dict assignment `d[key] = v`: replace in place if present, append if
absent. -/
def dinsert {α : Type} : List (ℤ × α) → ℤ → α → List (ℤ × α)
  | [], key, v => [(key, v)]
  | (k, w) :: rest, key, v =>
    if key = k then (k, v) :: rest else (k, w) :: dinsert rest key v

/-- Dict deletion `del d[key]` (no-op when absent, matching the
`if key in d: del d[key]` guards of the source). -/
def derase {α : Type} : List (ℤ × α) → ℤ → List (ℤ × α)
  | [], _ => []
  | (k, w) :: rest, key => if key = k then rest else (k, w) :: derase rest key

/-- Per-user alert latch pair, one entry of `user_alert_state` in
src/bot.py. -/
structure Latch where
  floor_triggered : Bool
  ceiling_triggered : Bool
deriving DecidableEq

/-- The mutable module-level state of src/bot.py that the store operations
touch: the in-memory `paid_subscribers` dict, the contents of
paid_subscribers.json after the last `save_paid_subscribers` call (`disk`),
and the `user_alert_state` latch table. -/
structure BotState where
  paid_subscribers : List (ℤ × SubVal)
  disk : List (ℤ × SubVal)
  user_alert_state : List (ℤ × Latch)
deriving DecidableEq

/-- `save_paid_subscribers` in src/bot.py: persist the in-memory dict. -/
def save_paid_subscribers (st : BotState) : BotState :=
  { st with disk := st.paid_subscribers }

/-- Expiry of a stored value, `sub.get("expiry", 0) if isinstance(sub, dict)
else sub`. -/
def expiry_of : SubVal → ℤ
  | .old n => n
  | .dict s => s.expiry

/-- `is_subscription_active` in src/bot.py, with the wall clock passed as
`now`. -/
def is_subscription_active (st : BotState) (user_id now : ℤ) : Bool :=
  match dlookup st.paid_subscribers user_id with
  | none => false
  | some v =>
    if expiry_of v = LIFETIME_EXPIRY then true else decide (now < expiry_of v)

/-- The `current_expiry` local of `activate_subscription`:
`paid_subscribers.get(user_id, {}).get("expiry", 0)` with the bare-integer
fallback. -/
def current_expiry_of (st : BotState) (user_id : ℤ) : ℤ :=
  match dlookup st.paid_subscribers user_id with
  | none => 0
  | some v => expiry_of v

/-- `activate_subscription` in src/bot.py: extend from
`max(current_expiry, now)`, store the updated record (a record created from
the `{}` default or from a bare integer has no `type` key and null
thresholds), persist, and return the new expiry. -/
def activate_subscription (st : BotState) (user_id days now : ℤ) : BotState × ℤ :=
  let sub : Subscriber :=
    match dlookup st.paid_subscribers user_id with
    | some (.dict s) => s
    | some (.old _) => ⟨none, 0, none, none⟩
    | none => ⟨none, 0, none, none⟩
  let base_time := max (current_expiry_of st user_id) now
  let new_expiry := base_time + days * 24 * 60 * 60
  let st' := save_paid_subscribers
    { st with paid_subscribers :=
        dinsert st.paid_subscribers user_id (.dict { sub with expiry := new_expiry }) }
  (st', new_expiry)

/-- `set_user_thresholds` in src/bot.py: no-op when the user is absent;
otherwise convert a bare integer to a record, apply the partial update
(`None` arguments keep the stored value) and persist. -/
def set_user_thresholds (st : BotState) (user_id : ℤ)
    (floor ceiling : Option ℚ) : BotState :=
  match dlookup st.paid_subscribers user_id with
  | none => st
  | some v =>
    let sub : Subscriber :=
      match v with
      | .dict s => s
      | .old n => ⟨none, n, none, none⟩
    let sub :=
      { sub with
        floor := match floor with | some f => some f | none => sub.floor
        ceiling := match ceiling with | some c => some c | none => sub.ceiling }
    save_paid_subscribers
      { st with paid_subscribers := dinsert st.paid_subscribers user_id (.dict sub) }

/-- Outcome replies of the `/setalerts` handler. -/
inductive SetAlertsReply
  | needSubscription
  | usage
  | invalidNumbers
  | negativeValues
  | floorNotBelowCeiling
  | updated
deriving DecidableEq

/-- The `setalerts` handler of src/bot.py (state-relevant behaviour).
`args` is the token list with each token already passed through `float()`:
`none` models a token on which `float()` raised `ValueError`.  The handler
checks the subscription, the argument count, numeric parsing, negativity and
`floor >= ceiling` in that order; only the final branch mutates state (it
sets the thresholds and deletes the user's `user_alert_state` entry). -/
def setalerts (st : BotState) (user_id now : ℤ)
    (args : List (Option ℚ)) : BotState × SetAlertsReply :=
  if ¬ is_subscription_active st user_id now then (st, .needSubscription)
  else
    match args with
    | [some floor, some ceiling] =>
      if floor < 0 ∨ ceiling < 0 then (st, .negativeValues)
      else if floor ≥ ceiling then (st, .floorNotBelowCeiling)
      else
        let st := set_user_thresholds st user_id (some floor) (some ceiling)
        let st := { st with user_alert_state := derase st.user_alert_state user_id }
        (st, .updated)
    | [_, _] => (st, .invalidNumbers)
    | _ => (st, .usage)

/-- The `resetalerts` handler of src/bot.py (state-relevant behaviour).
Returns `true` when the subscription was active (the reset path ran).  For a
present record dict the thresholds are cleared and the store persisted; the
source also calls `save_paid_subscribers` when the lookup default `{}` was
used, and skips the save for a bare integer.  The alert-state entry is
deleted on the active path. -/
def resetalerts (st : BotState) (user_id now : ℤ) : BotState × Bool :=
  if ¬ is_subscription_active st user_id now then (st, false)
  else
    let st :=
      match dlookup st.paid_subscribers user_id with
      | some (.dict s) =>
        let cleared : SubVal := .dict { s with floor := none, ceiling := none }
        save_paid_subscribers
          { st with paid_subscribers := dinsert st.paid_subscribers user_id cleared }
      | some (.old _) => st
      | none => save_paid_subscribers st
    ({ st with user_alert_state := derase st.user_alert_state user_id }, true)

/-- The effective latch pair of a user as `check_and_alert` sees it: the
stored entry, or the lazily created `{"floor_triggered": False,
"ceiling_triggered": False}` when absent. -/
def latchOf (st : BotState) (user_id : ℤ) : Latch :=
  (dlookup st.user_alert_state user_id).getD ⟨false, false⟩

/-! ## Legacy-store migration (src/bot.py `load_paid_subscribers`) -/

/-- Normalisation applied to one value of the `subscribers` map of
paid_subscribers.json: a bare integer becomes a user record with that
expiry; a dict gets its missing `type` defaulted to user. -/
def normalize_paid (v : SubVal) : Subscriber :=
  match v with
  | .old n => ⟨some .user, n, none, none⟩
  | .dict s => { s with type := some (s.type.getD .user) }

/-- The loop over `data.get("subscribers", {}).items()` in
`load_paid_subscribers`: each entry overwrites any record with the same id. -/
def paid_fold (init : List (ℤ × SubVal)) (entries : List (ℤ × SubVal)) :
    List (ℤ × SubVal) :=
  entries.foldl (fun r kv => dinsert r kv.1 (.dict (normalize_paid kv.2))) init

/-- The loop over a legacy flat id list (`chat_ids` or `group_ids`),
inserting lifetime records of the given kind. -/
def legacy_fold (kind : SubType) (init : List (ℤ × SubVal)) (ids : List ℤ) :
    List (ℤ × SubVal) :=
  ids.foldl (fun r cid => dinsert r cid (.dict ⟨some kind, LIFETIME_EXPIRY, none, none⟩)) init

/-- `load_paid_subscribers` in src/bot.py.  `chat_ids` / `group_ids` /
`paid` are the parsed contents of subscribers.json, group_chats.json and
paid_subscribers.json (`none` models a missing file or a parse failure).
Returns the merged dict and the `migrated` flag; legacy ids are loaded
first, then canonical records override them. -/
def load_paid_subscribers (chat_ids group_ids : Option (List ℤ))
    (paid : Option (List (ℤ × SubVal))) : List (ℤ × SubVal) × Bool :=
  let r : List (ℤ × SubVal) := []
  let (r, migrated) :=
    match chat_ids with
    | some ids => if ids ≠ [] then (legacy_fold .user r ids, true) else (r, false)
    | none => (r, false)
  let (r, migrated) :=
    match group_ids with
    | some ids => if ids ≠ [] then (legacy_fold .group r ids, true) else (r, migrated)
    | none => (r, migrated)
  let r :=
    match paid with
    | some entries => paid_fold r entries
    | none => r
  (r, migrated)

/-- The module-level startup of src/bot.py: load the store (the previous
contents of paid_subscribers.json being `disk0`), and save immediately when
legacy data was migrated. -/
def startup (chat_ids group_ids : Option (List ℤ))
    (paid : Option (List (ℤ × SubVal))) (disk0 : List (ℤ × SubVal)) : BotState :=
  let lr := load_paid_subscribers chat_ids group_ids paid
  let st : BotState := ⟨lr.1, disk0, []⟩
  if lr.2 then save_paid_subscribers st else st

/-- The canonical record a migrated legacy `chat_ids` entry becomes:
individual, lifetime, default thresholds. -/
def lifetimeUser : SubVal := .dict ⟨some .user, LIFETIME_EXPIRY, none, none⟩

/-! ## Alert engine (src/bot.py `check_and_alert`) -/

/-- Notifications emitted by one latch evaluation in `check_and_alert`:
the "degraded" alerts (`floorAlert`, `ceilingAlert`) and the "recovered"
notices (`floorRecovery`, `ceilingRecovery`). -/
inductive AlertMsg
  | floorAlert
  | floorRecovery
  | ceilingAlert
  | ceilingRecovery
deriving DecidableEq

/-- The floor branch of `check_and_alert` for one recipient:
`if proofrate < floor and not state["floor_triggered"]` send the degraded
alert and latch; `elif proofrate >= floor and state["floor_triggered"]`
send the recovery and unlatch; else no change. -/
def stepFloor (rate floor : ℚ) (s : Latch) : Latch × List AlertMsg :=
  if rate < floor ∧ s.floor_triggered = false then
    ({ s with floor_triggered := true }, [.floorAlert])
  else if floor ≤ rate ∧ s.floor_triggered = true then
    ({ s with floor_triggered := false }, [.floorRecovery])
  else (s, [])

/-- The ceiling branch of `check_and_alert` for one recipient:
`if proofrate > ceiling and not state["ceiling_triggered"]` /
`elif proofrate <= ceiling and state["ceiling_triggered"]`. -/
def stepCeiling (rate ceiling : ℚ) (s : Latch) : Latch × List AlertMsg :=
  if ceiling < rate ∧ s.ceiling_triggered = false then
    ({ s with ceiling_triggered := true }, [.ceilingAlert])
  else if rate ≤ ceiling ∧ s.ceiling_triggered = true then
    ({ s with ceiling_triggered := false }, [.ceilingRecovery])
  else (s, [])

/-- One evaluation of a recipient in `check_and_alert`: the floor branch
followed by the ceiling branch (the group/broadcast section of the source is
the same machine over the global latch pair and default thresholds). -/
def stepUser (rate floor ceiling : ℚ) (s : Latch) : Latch × List AlertMsg :=
  let f := stepFloor rate floor s
  let c := stepCeiling rate ceiling f.1
  (c.1, f.2 ++ c.2)

/-- The lazily-created initial latch pair of a recipient. -/
def initial_latch : Latch := ⟨false, false⟩

/-- The latch of one recipient after `n` polling cycles.  `f k` is the
cycle-`k` observation: `none` when the cycle produced no evaluation for this
recipient (metrics fetch failed, or the recipient was skipped as expired),
`some (rate, floor, ceiling)` when `check_and_alert` evaluated it with that
proofrate and those resolved thresholds. -/
def cycleSeq (f : ℕ → Option (ℚ × ℚ × ℚ)) : ℕ → Latch
  | 0 => initial_latch
  | n + 1 =>
    match f n with
    | none => cycleSeq f n
    | some (rate, floor, ceiling) => (stepUser rate floor ceiling (cycleSeq f n)).1

/-- The notifications sent to the recipient during cycle `n`. -/
def cycleEvents (f : ℕ → Option (ℚ × ℚ × ℚ)) (n : ℕ) : List AlertMsg :=
  match f n with
  | none => []
  | some (rate, floor, ceiling) => (stepUser rate floor ceiling (cycleSeq f n)).2

/-! ## Concrete inputs used by witnesses and counterexamples -/

/-- Sample cycle observations for the C1 witness: floor 1, ceiling 4;
proofrate 0 (below floor), then 2 (recovered), then 0 again. -/
def c1_samples (n : ℕ) : Option (ℚ × ℚ × ℚ) :=
  if n = 0 then some (0, 1, 4)
  else if n = 1 then some (2, 1, 4)
  else if n = 2 then some (0, 1, 4)
  else none

/-- State for the C2 counterexample: user 7 holds an active timed
subscription (expiry 2000) and both latches are set. -/
def c2_state : BotState :=
  { paid_subscribers := [(7, .dict ⟨some .user, 2000, none, none⟩)]
    disk := [(7, .dict ⟨some .user, 2000, none, none⟩)]
    user_alert_state := [(7, ⟨true, true⟩)] }

/-- State for witnesses over the store handlers: user 5 has a lifetime
subscription with custom thresholds and a set floor latch. -/
def wit_state : BotState :=
  { paid_subscribers := [(5, .dict ⟨some .user, 0, some 2, some 4⟩)]
    disk := [(5, .dict ⟨some .user, 0, some 2, some 4⟩)]
    user_alert_state := [(5, ⟨true, false⟩)] }

/-- Blocks for the C9 witness: height 10 carries transactions, height 11
does not. -/
def c9_blocks : List VBlock := [⟨10, [1]⟩, ⟨11, []⟩]

/-- Transaction responses for the C9 witness: height 10 yields one
transaction with a 100-nick non-coinbase seed and a 50-nick coinbase seed,
plus one transaction with no outputs; other heights fail. -/
def c9_txs (h : ℤ) : Option (List Tx) :=
  if h = 10 then some [⟨[⟨[⟨false, 100⟩, ⟨true, 50⟩]⟩]⟩, ⟨[]⟩] else none

/-- Existence predicate for the C6 witness: blocks exist up to height 5. -/
def c6_pred (h : ℕ) : Bool := decide (h ≤ 5)

/-! ## Theorems -/

/-- Claim C3 (counterexample): on the test vector anchor work 1000, tip work
2000, time_diff 1000 s, num_intervals 10, the numeric proofrate is not the
claimed 0.001 MP/s: the source computes `work_diff / time_diff / 1_000_000 =
1 / 1_000_000`. -/
theorem metrics_example_proofrate_counterexample :
    (calculate_metrics c3_anchor c3_tip 101 10).proofrate_value ≠ 1 / 1000 := by
  simp only [calculate_metrics, time_diff_of, work_diff_of, c3_anchor, c3_tip, Option.getD]
  norm_num

/-- Claim C3 (amended): on the same test vector the source yields an average
block time of 100 seconds, a proofrate of exactly 0.000001 MP/s (1e-6, not
0.001), and a difficulty whose rendered exponent is log2 of the
work-per-block 100 (`difficulty = .num 100` renders as `2^log2(100)` ≈
2^6.6). -/
theorem metrics_example_amended :
    (calculate_metrics c3_anchor c3_tip 101 10).avg_block_time = .num 100 ∧
    (calculate_metrics c3_anchor c3_tip 101 10).proofrate_value = 1 / 1000000 ∧
    (calculate_metrics c3_anchor c3_tip 101 10).difficulty = .num 100 := by
  refine ⟨?_, ?_, ?_⟩ <;>
    simp only [calculate_metrics, avg_block_time_seconds_of, time_diff_of, work_diff_of,
      c3_anchor, c3_tip, Option.getD] <;>
    norm_num

/-- Claim C4: when `time_diff` is non-positive, every output that depends on
it (average block time, estimated time to adjustment, adjustment ratio) is
the "N/A" sentinel; when `work_diff` is non-positive, the difficulty is
"N/A"; and in either case the numeric proofrate is exactly 0. -/
theorem insufficient_data_sentinels (first_block latest_block : Block)
    (latest_height num_intervals : ℤ) :
    (time_diff_of first_block latest_block ≤ 0 →
      (calculate_metrics first_block latest_block latest_height num_intervals).avg_block_time = .na ∧
      (calculate_metrics first_block latest_block latest_height num_intervals).est_time_to_adj = .na ∧
      (calculate_metrics first_block latest_block latest_height num_intervals).next_adj = .na ∧
      (calculate_metrics first_block latest_block latest_height num_intervals).proofrate_value = 0) ∧
    (work_diff_of first_block latest_block ≤ 0 →
      (calculate_metrics first_block latest_block latest_height num_intervals).difficulty = .na ∧
      (calculate_metrics first_block latest_block latest_height num_intervals).proofrate_value = 0) := by
  constructor
  · intro h
    have havg : avg_block_time_seconds_of first_block latest_block num_intervals = 0 := by
      unfold avg_block_time_seconds_of
      rw [if_neg]
      rintro ⟨h1, -⟩
      omega
    simp only [calculate_metrics, havg]
    refine ⟨?_, ?_, ?_, ?_⟩
    · rw [if_neg]; simp
    · rw [if_neg]; simp
    · rw [if_neg]; simp
    · rw [if_neg]
      rintro ⟨h1, -⟩
      omega
  · intro h
    simp only [calculate_metrics]
    constructor
    · rw [if_neg]
      rintro ⟨-, h2⟩
      omega
    · rw [if_neg]
      rintro ⟨-, h2⟩
      omega

/-- Claim C4 (witness): a concrete pair of blocks with zero time_diff and
negative work_diff realises both sentinel branches. -/
theorem insufficient_data_sentinels_witness :
    (calculate_metrics ⟨some 5, some 9, some 0⟩ ⟨some 5, some 3, some 0⟩ 7 4).avg_block_time = .na ∧
    (calculate_metrics ⟨some 5, some 9, some 0⟩ ⟨some 5, some 3, some 0⟩ 7 4).est_time_to_adj = .na ∧
    (calculate_metrics ⟨some 5, some 9, some 0⟩ ⟨some 5, some 3, some 0⟩ 7 4).next_adj = .na ∧
    (calculate_metrics ⟨some 5, some 9, some 0⟩ ⟨some 5, some 3, some 0⟩ 7 4).proofrate_value = 0 ∧
    (calculate_metrics ⟨some 5, some 9, some 0⟩ ⟨some 5, some 3, some 0⟩ 7 4).difficulty = .na := by
  have h := insufficient_data_sentinels ⟨some 5, some 9, some 0⟩ ⟨some 5, some 3, some 0⟩ 7 4
  obtain ⟨h1, h2⟩ := h
  obtain ⟨a, b, c, d⟩ := h1 (by decide)
  obtain ⟨e, -⟩ := h2 (by decide)
  exact ⟨a, b, c, d, e⟩

/-- Lookup after a dict assignment: the assigned key reads the new value,
every other key is unaffected. -/
theorem dlookup_dinsert {α : Type} (m : List (ℤ × α)) (k k' : ℤ) (v : α) :
    dlookup (dinsert m k v) k' = if k' = k then some v else dlookup m k' := by
  induction m with
  | nil => simp [dinsert, dlookup]
  | cons hd tl ih =>
    obtain ⟨k1, v1⟩ := hd
    simp only [dinsert, dlookup]
    split_ifs <;> simp_all [dlookup]

/-- A key absent from the association list looks up to `none`. -/
theorem dlookup_eq_none {α : Type} (m : List (ℤ × α)) (k : ℤ)
    (h : k ∉ m.map Prod.fst) : dlookup m k = none := by
  induction m with
  | nil => rfl
  | cons hd tl ih =>
    obtain ⟨k1, v1⟩ := hd
    simp only [List.map_cons, List.mem_cons, not_or] at h
    simp only [dlookup, if_neg h.1]
    exact ih h.2

/-- Deleting a key from a dict (unique keys) makes its lookup `none`. -/
theorem dlookup_derase_self {α : Type} (m : List (ℤ × α)) (k : ℤ)
    (h : (m.map Prod.fst).Nodup) : dlookup (derase m k) k = none := by
  induction m with
  | nil => rfl
  | cons hd tl ih =>
    obtain ⟨k1, v1⟩ := hd
    simp only [List.map_cons, List.nodup_cons] at h
    simp only [derase]
    split_ifs with hk
    · subst hk
      exact dlookup_eq_none tl k h.1
    · simp only [dlookup, if_neg hk]
      exact ih h.2

/-- Structure of `activate_subscription`: the store gains the updated record
at `user_id`, whose expiry is `max(current_expiry, now) + days*24*60*60`,
that expiry is returned, and the store is persisted. -/
theorem activate_subscription_spec (st : BotState) (uid days now : ℤ) :
    ∃ s : Subscriber,
      (activate_subscription st uid days now).1.paid_subscribers
        = dinsert st.paid_subscribers uid (.dict s) ∧
      s.expiry = max (current_expiry_of st uid) now + days * (24 * 60 * 60) ∧
      (activate_subscription st uid days now).2 = s.expiry ∧
      (activate_subscription st uid days now).1.disk
        = (activate_subscription st uid days now).1.paid_subscribers := by
  cases h : dlookup st.paid_subscribers uid with
  | none =>
    simp only [activate_subscription, save_paid_subscribers, h]
    refine ⟨_, rfl, ?_, ?_, ?_⟩
    · ring
    · rfl
    · trivial
  | some v =>
    cases v with
    | old n =>
      simp only [activate_subscription, save_paid_subscribers, h]
      refine ⟨_, rfl, ?_, ?_, ?_⟩
      · ring
      · rfl
      · trivial
    | dict s =>
      simp only [activate_subscription, save_paid_subscribers, h]
      refine ⟨_, rfl, ?_, ?_, ?_⟩
      · ring
      · rfl
      · trivial

/-- Claim C5: for every recipient and positive duration, activation sets the
new expiry to `max(current expiry, now) + days` (in seconds), establishes
the record (the id looks up to a stored record carrying the new expiry),
and persists the store; in particular a recipient whose expiry lies 10 days
ahead, activated for 30 days, ends at old expiry + 30 days. -/
theorem activate_subscription_extends_from_max (st : BotState) (uid days now : ℤ)
    (hdays : 0 < days) :
    (activate_subscription st uid days now).2
      = max (current_expiry_of st uid) now + days * 86400 ∧
    (∃ s : Subscriber,
      dlookup (activate_subscription st uid days now).1.paid_subscribers uid
        = some (.dict s) ∧ s.expiry = (activate_subscription st uid days now).2) ∧
    (activate_subscription st uid days now).1.disk
      = (activate_subscription st uid days now).1.paid_subscribers ∧
    (days = 30 → current_expiry_of st uid = now + 10 * 86400 →
      (activate_subscription st uid days now).2 = current_expiry_of st uid + 30 * 86400) := by
  obtain ⟨s, hsubs, hexp, hret, hdisk⟩ := activate_subscription_spec st uid days now
  refine ⟨?_, ⟨s, ?_, hret.symm⟩, hdisk, ?_⟩
  · rw [hret, hexp]; ring
  · rw [hsubs, dlookup_dinsert]; simp
  · intro h30 hcur
    rw [hret, hexp, hcur, h30, max_eq_left (by omega)]
    ring

/-- Claim C5 (witness): activating user 5 of `wit_state` (lifetime, expiry
0) for 30 days at now = 1000. -/
theorem activate_subscription_extends_from_max_witness :
    (activate_subscription wit_state 5 30 1000).2
      = max (current_expiry_of wit_state 5) 1000 + 30 * 86400 ∧
    (∃ s : Subscriber,
      dlookup (activate_subscription wit_state 5 30 1000).1.paid_subscribers 5
        = some (.dict s) ∧ s.expiry = (activate_subscription wit_state 5 30 1000).2) ∧
    (activate_subscription wit_state 5 30 1000).1.disk
      = (activate_subscription wit_state 5 30 1000).1.paid_subscribers ∧
    (30 = (30 : ℤ) → current_expiry_of wit_state 5 = 1000 + 10 * 86400 →
      (activate_subscription wit_state 5 30 1000).2
        = current_expiry_of wit_state 5 + 30 * 86400) :=
  activate_subscription_extends_from_max wit_state 5 30 1000 (by decide)

/-- Claim C10: activating a recipient whose stored expiry is the lifetime
sentinel 0 yields `now + days` seconds (since `max(0, now) = now`): the new
expiry is no longer the sentinel, and the renewed subscription is inactive
once the clock reaches the new expiry — lifetime status is lost. -/
theorem activate_lifetime_loses_lifetime (st : BotState) (uid days now : ℤ)
    (hlife : current_expiry_of st uid = LIFETIME_EXPIRY)
    (hnow : 0 < now) (hdays : 0 ≤ days) :
    (activate_subscription st uid days now).2 = now + days * 86400 ∧
    (activate_subscription st uid days now).2 ≠ LIFETIME_EXPIRY ∧
    is_subscription_active (activate_subscription st uid days now).1 uid
      (now + days * 86400) = false := by
  obtain ⟨s, hsubs, hexp, hret, hdisk⟩ := activate_subscription_spec st uid days now
  have hval : (activate_subscription st uid days now).2 = now + days * 86400 := by
    rw [hret, hexp, hlife]
    rw [LIFETIME_EXPIRY, max_eq_right (by omega)]
    ring
  have hpos : (0 : ℤ) < now + days * 86400 := by positivity
  refine ⟨hval, ?_, ?_⟩
  · rw [hval, LIFETIME_EXPIRY]; omega
  · rw [is_subscription_active, hsubs, dlookup_dinsert, if_pos rfl]
    have hse : s.expiry = now + days * 86400 := by rw [← hret]; exact hval
    simp only [expiry_of, hse, LIFETIME_EXPIRY]
    rw [if_neg (by omega)]
    simp

/-- Claim C10 (witness): user 5 of `wit_state` holds a lifetime
subscription; activating for 30 days at now = 1000 yields expiry 2593000
and a now-expiring subscription. -/
theorem activate_lifetime_loses_lifetime_witness :
    (activate_subscription wit_state 5 30 1000).2 = 1000 + 30 * 86400 ∧
    (activate_subscription wit_state 5 30 1000).2 ≠ LIFETIME_EXPIRY ∧
    is_subscription_active (activate_subscription wit_state 5 30 1000).1 5
      (1000 + 30 * 86400) = false :=
  activate_lifetime_loses_lifetime wit_state 5 30 1000 (by decide) (by decide) (by decide)

/-- `set_user_thresholds` never touches the latch table. -/
theorem set_user_thresholds_alert_state (st : BotState) (uid : ℤ)
    (floor ceiling : Option ℚ) :
    (set_user_thresholds st uid floor ceiling).user_alert_state
      = st.user_alert_state := by
  cases hm : dlookup st.paid_subscribers uid <;>
    simp [set_user_thresholds, hm, save_paid_subscribers]

/-- Exhaustive case split of the `/setalerts` handler: either the request is
the valid two-number one (subscription active, both non-negative, floor
below ceiling) and the handler stores the thresholds and drops the latch
entry, or the state is returned unchanged with a non-success reply. -/
theorem setalerts_case (st : BotState) (uid now : ℤ) (args : List (Option ℚ)) :
    (∃ f c, args = [some f, some c] ∧ is_subscription_active st uid now = true ∧
      ¬ f < 0 ∧ ¬ c < 0 ∧ f < c ∧
      setalerts st uid now args
        = ({ set_user_thresholds st uid (some f) (some c) with
             user_alert_state :=
               derase (set_user_thresholds st uid (some f) (some c)).user_alert_state uid },
           .updated)) ∨
    ((setalerts st uid now args).1 = st ∧ (setalerts st uid now args).2 ≠ .updated) := by
  by_cases hact : is_subscription_active st uid now = true
  · rcases args with _ | ⟨a, _ | ⟨b, _ | ⟨c0, rest⟩⟩⟩
    · right; constructor <;> simp [setalerts, hact]
    · right; constructor <;> simp [setalerts, hact]
    · rcases a with _ | f
      · right; constructor <;> simp [setalerts, hact]
      · rcases b with _ | c1
        · right; constructor <;> simp [setalerts, hact]
        · by_cases hneg : f < 0 ∨ c1 < 0
          · right; constructor <;> simp [setalerts, hact, hneg]
          · by_cases hfc : f ≥ c1
            · right; constructor <;> simp [setalerts, hact, hneg, hfc]
            · left
              push_neg at hneg
              refine ⟨f, c1, rfl, hact, not_lt.mpr hneg.1, not_lt.mpr hneg.2,
                lt_of_not_ge hfc, ?_⟩
              simp [setalerts, hact, hneg.1, hneg.2, hfc, not_lt.mpr hneg.1,
                not_lt.mpr hneg.2]
    · right; constructor <;> simp [setalerts, hact]
  · right; constructor <;> simp [setalerts, hact]

/-- When `/resetalerts` runs for an active subscriber, the latch table ends
as the original one with the user's entry deleted. -/
theorem resetalerts_alert_state (st : BotState) (uid now : ℤ)
    (hact : is_subscription_active st uid now = true) :
    (resetalerts st uid now).1.user_alert_state
      = derase st.user_alert_state uid := by
  rw [resetalerts, if_neg (not_not_intro hact)]
  cases hm : dlookup st.paid_subscribers uid with
  | none => simp [hm, save_paid_subscribers]
  | some v =>
    cases v with
    | old n => simp [hm]
    | dict s => simp [hm, save_paid_subscribers]

/-- `/resetalerts` reports `true` only when the subscription was active. -/
theorem resetalerts_ran (st : BotState) (uid now : ℤ)
    (h : (resetalerts st uid now).2 = true) :
    is_subscription_active st uid now = true := by
  by_contra hact
  rw [resetalerts, if_pos hact] at h
  cases h

/-- Claim C2 (counterexample): renewing the subscription of user 7 of
`c2_state` (active, expiry 2000, both latches set) via
`activate_subscription` — the operation `successful_payment_callback`
performs — leaves the latch pair at `(true, true)`: the claimed reset to
`(false, false)` on renewal does not happen. -/
theorem renewal_does_not_reset_latch_counterexample :
    latchOf (activate_subscription c2_state 7 30 1000).1 7 ≠ ⟨false, false⟩ := by
  decide

/-- Claim C2 (amended): the latch pair of a recipient is reset to
`(false, false)` (its `user_alert_state` entry is deleted, and
`check_and_alert` recreates it as all-false) whenever the recipient's
thresholds are changed — a successful `/setalerts` or an active
`/resetalerts` — but it is NOT reset when the subscription is renewed:
`activate_subscription` leaves `user_alert_state` untouched. -/
theorem latch_reset_on_threshold_change_not_on_renewal (st : BotState)
    (uid now days : ℤ) (args : List (Option ℚ))
    (hkeys : (st.user_alert_state.map Prod.fst).Nodup) :
    ((setalerts st uid now args).2 = .updated →
      latchOf (setalerts st uid now args).1 uid = ⟨false, false⟩) ∧
    ((resetalerts st uid now).2 = true →
      latchOf (resetalerts st uid now).1 uid = ⟨false, false⟩) ∧
    (activate_subscription st uid days now).1.user_alert_state
      = st.user_alert_state := by
  refine ⟨?_, ?_, ?_⟩
  · intro h
    rcases setalerts_case st uid now args with ⟨f, c, -, -, -, -, -, heq⟩ | ⟨-, hne⟩
    · rw [latchOf, heq]
      simp only
      rw [set_user_thresholds_alert_state,
        dlookup_derase_self _ _ hkeys, Option.getD]
    · exact absurd h hne
  · intro h
    rw [latchOf, resetalerts_alert_state st uid now (resetalerts_ran st uid now h),
      dlookup_derase_self _ _ hkeys, Option.getD]
  · cases hm : dlookup st.paid_subscribers uid <;>
      simp [activate_subscription, save_paid_subscribers, hm]

/-- Claim C2 amended (witness): on `wit_state` (user 5 active with a set
floor latch), `/setalerts 2 3` resets the latch, `/resetalerts` resets the
latch, and a 30-day activation leaves the latch table unchanged. -/
theorem latch_reset_on_threshold_change_not_on_renewal_witness :
    ((setalerts wit_state 5 1000 [some 2, some 3]).2 = .updated →
      latchOf (setalerts wit_state 5 1000 [some 2, some 3]).1 5 = ⟨false, false⟩) ∧
    ((resetalerts wit_state 5 1000).2 = true →
      latchOf (resetalerts wit_state 5 1000).1 5 = ⟨false, false⟩) ∧
    (activate_subscription wit_state 5 30 1000).1.user_alert_state
      = wit_state.user_alert_state :=
  latch_reset_on_threshold_change_not_on_renewal wit_state 5 1000 30
    [some 2, some 3] (by decide)

/-- Claim C8: a `/setalerts` request whose two tokens fail numeric parsing
or whose parsed floor is at least the ceiling is refused (the reply is not
the success reply) and the whole bot state — stored thresholds, store file
and latch table — is left exactly as it was. -/
theorem setalerts_rejects_invalid_without_mutation (st : BotState)
    (uid now : ℤ) (args : List (Option ℚ))
    (h : ∃ a b, args = [a, b] ∧
      (a = none ∨ b = none ∨ ∃ f c, a = some f ∧ b = some c ∧ c ≤ f)) :
    (setalerts st uid now args).1 = st ∧
    (setalerts st uid now args).2 ≠ .updated := by
  rcases setalerts_case st uid now args with ⟨f, c, hargs, -, -, -, hfc, -⟩ | ⟨h1, h2⟩
  · obtain ⟨a, b, hab, hbad⟩ := h
    rw [hab] at hargs
    have ha : a = some f := by injection hargs with h1 h2
    have hb : b = some c := by
      injection hargs with h1 h2
      injection h2 with h3 h4
    rcases hbad with hb1 | hb1 | ⟨f', c', hf', hc', hle⟩
    · rw [hb1] at ha; cases ha
    · rw [hb1] at hb; cases hb
    · rw [hf'] at ha
      rw [hc'] at hb
      injection ha with haf
      injection hb with hbc
      rw [haf, hbc] at hle
      exact absurd hfc (not_lt.mpr hle)
  · exact ⟨h1, h2⟩

/-- Claim C8 (witness): `/setalerts 3 2` (floor above ceiling) on
`wit_state` is refused and mutates nothing. -/
theorem setalerts_rejects_invalid_without_mutation_witness :
    (setalerts wit_state 5 1000 [some 3, some 2]).1 = wit_state ∧
    (setalerts wit_state 5 1000 [some 3, some 2]).2 ≠ .updated :=
  setalerts_rejects_invalid_without_mutation wit_state 5 1000 [some 3, some 2]
    ⟨some 3, some 2, rfl, Or.inr (Or.inr ⟨3, 2, rfl, rfl, by norm_num⟩)⟩

/-- Keys not present in the processed canonical entries read through to the
initial dict. -/
theorem paid_fold_lookup_of_not_mem (entries : List (ℤ × SubVal))
    (init : List (ℤ × SubVal)) (sid : ℤ) (h : sid ∉ entries.map Prod.fst) :
    dlookup (paid_fold init entries) sid = dlookup init sid := by
  induction entries generalizing init with
  | nil => rfl
  | cons hd tl ih =>
    obtain ⟨k, v⟩ := hd
    simp only [List.map_cons, List.mem_cons, not_or] at h
    simp only [paid_fold, List.foldl_cons]
    rw [show (List.foldl (fun r kv => dinsert r kv.1 (SubVal.dict (normalize_paid kv.2)))
        (dinsert init k (SubVal.dict (normalize_paid v))) tl)
      = paid_fold (dinsert init k (SubVal.dict (normalize_paid v))) tl from rfl,
      ih _ h.2, dlookup_dinsert, if_neg h.1]

/-- Keys present in the processed canonical entries read the same value no
matter what dict the processing started from: the canonical record wins. -/
theorem paid_fold_lookup_of_mem (entries : List (ℤ × SubVal))
    (init1 init2 : List (ℤ × SubVal)) (sid : ℤ) (h : sid ∈ entries.map Prod.fst) :
    dlookup (paid_fold init1 entries) sid = dlookup (paid_fold init2 entries) sid := by
  induction entries generalizing init1 init2 with
  | nil => simp at h
  | cons hd tl ih =>
    obtain ⟨k, v⟩ := hd
    by_cases hmem : sid ∈ tl.map Prod.fst
    · simp only [paid_fold, List.foldl_cons]
      exact ih _ _ hmem
    · have hk : sid = k := by
        simp only [List.map_cons, List.mem_cons] at h
        tauto
      subst hk
      simp only [paid_fold, List.foldl_cons]
      rw [show ∀ m : List (ℤ × SubVal),
          (List.foldl (fun r kv => dinsert r kv.1 (SubVal.dict (normalize_paid kv.2))) m tl)
            = paid_fold m tl from fun m => rfl,
        show ∀ m : List (ℤ × SubVal),
          (List.foldl (fun r kv => dinsert r kv.1 (SubVal.dict (normalize_paid kv.2))) m tl)
            = paid_fold m tl from fun m => rfl,
        paid_fold_lookup_of_not_mem tl _ _ hmem, paid_fold_lookup_of_not_mem tl _ _ hmem,
        dlookup_dinsert, dlookup_dinsert]
      simp

/-- Claim C7: loading the legacy store with chat_ids [1, 2] and re-saving
(the startup path saves immediately after a migration) produces the
canonical document in which 1 and 2 are individual lifetime recipients with
null thresholds; and any id carried by the canonical paid_subscribers.json
document reads, after the merged load, exactly the value the canonical
document alone determines — canonical records win over legacy ones. -/
theorem migration_round_trip_and_precedence (d : List (ℤ × SubVal))
    (cids gids : Option (List ℤ)) (paid : List (ℤ × SubVal)) (sid : ℤ) :
    (startup (some [1, 2]) none none d).disk
      = [(1, lifetimeUser), (2, lifetimeUser)] ∧
    (sid ∈ paid.map Prod.fst →
      dlookup (load_paid_subscribers cids gids (some paid)).1 sid
        = dlookup (paid_fold [] paid) sid) := by
  constructor
  · rfl
  · intro hmem
    rw [load_paid_subscribers.eq_def]
    cases cids <;> cases gids <;>
      exact paid_fold_lookup_of_mem paid _ _ sid hmem

/-- Claim C7 (witness): id 3 appears both in the legacy chat_ids list and in
the canonical document (as the bare integer 42); the merged load yields the
canonical value for id 3. -/
theorem migration_round_trip_and_precedence_witness :
    dlookup (load_paid_subscribers (some [3, 4]) none (some [(3, SubVal.old 42)])).1 3
      = dlookup (paid_fold [] [(3, SubVal.old 42)]) 3 :=
  (migration_round_trip_and_precedence [] (some [3, 4]) none
    [(3, SubVal.old 42)] 3).2 (by decide)

/-- The seed loop accumulates exactly the non-coinbase gift sum. -/
theorem seed_foldl (seeds : List Seed) (total : ℤ) :
    seeds.foldl seed_step total = total + nonCoinbaseSum seeds := by
  induction seeds generalizing total with
  | nil => simp [nonCoinbaseSum]
  | cons s tl ih =>
    cases hcb : s.isCoinbase <;>
      · simp [seed_step, hcb, ih, nonCoinbaseSum, List.filter_cons]
        try ring

/-- The output loop accumulates the per-output non-coinbase sums. -/
theorem output_foldl (outs : List TxOutput) (total : ℤ) :
    outs.foldl output_step total
      = total + (outs.map fun o => nonCoinbaseSum o.seeds).sum := by
  induction outs generalizing total with
  | nil => simp
  | cons o tl ih =>
    simp [output_step, seed_foldl, ih]
    ring

/-- The transaction loop adds the gift sum and counts every transaction. -/
theorem tx_foldl (txs : List Tx) (acc : ℤ × ℕ) :
    txs.foldl tx_step acc = (acc.1 + txsGiftSum txs, acc.2 + txs.length) := by
  induction txs generalizing acc with
  | nil => simp [txsGiftSum]
  | cons t tl ih =>
    simp [tx_step, output_foldl, ih, txsGiftSum, txOutputsSum]
    constructor
    · ring
    · omega

/-- The height loop adds, per examined height, the gift sum and transaction
count of the returned transactions (a failed or empty response contributing
zero to both). -/
theorem heights_foldl (txsOf : ℤ → Option (List Tx)) (hs : List ℤ) (acc : ℤ × ℕ) :
    hs.foldl (height_step txsOf) acc
      = (acc.1 + (hs.map fun h => txsGiftSum ((txsOf h).getD [])).sum,
         acc.2 + (hs.map fun h => ((txsOf h).getD []).length).sum) := by
  induction hs generalizing acc with
  | nil => simp
  | cons h tl ih =>
    simp only [List.foldl_cons, height_step]
    cases hx : txsOf h with
    | none => simp [hx, ih, txsGiftSum]
    | some txs =>
      cases txs with
      | nil => simp [hx, ih, txsGiftSum]
      | cons t ts =>
        simp only [tx_foldl, ih, hx, List.map_cons, List.sum_cons, Option.getD_some,
          Prod.mk.injEq]
        constructor
        · ring
        · omega

/-- Claim C9: a successful 24-hour aggregation reports as volume the sum,
over every transaction returned for every examined block, of every seed
value whose isCoinbase flag is false, divided by 65536; as transaction count
every transaction object returned (contributing or not); and as block count
every block in range. -/
theorem volume_sums_non_coinbase_outputs (blocks : List VBlock)
    (txsOf : ℤ → Option (List Tx)) (hne : blocks ≠ []) :
    fetch_24h_volume (some blocks) txsOf
      = some ⟨(((((examined_heights blocks).map
              fun h => txsGiftSum ((txsOf h).getD [])).sum : ℤ) : ℚ)) / 65536,
          ((examined_heights blocks).map fun h => ((txsOf h).getD []).length).sum,
          blocks.length⟩ := by
  rw [fetch_24h_volume, if_neg hne, heights_foldl]
  simp

/-- Claim C9 (witness): the two-block example `c9_blocks` with `c9_txs`:
only height 10 is examined, the non-coinbase seed of 100 nicks counts, the
coinbase seed of 50 does not, and both transaction objects are counted. -/
theorem volume_sums_non_coinbase_outputs_witness :
    fetch_24h_volume (some c9_blocks) c9_txs
      = some ⟨(((((examined_heights c9_blocks).map
              fun h => txsGiftSum ((c9_txs h).getD [])).sum : ℤ) : ℚ)) / 65536,
          ((examined_heights c9_blocks).map fun h => ((c9_txs h).getD []).length).sum,
          c9_blocks.length⟩ :=
  volume_sums_non_coinbase_outputs c9_blocks c9_txs (by decide)

/-- With enough fuel, the geometric expansion reaches a height above the tip
(a failing probe). -/
theorem expand_high_above_tip (p : ℕ → Bool) (T : ℕ)
    (hp : ∀ h, p h = true ↔ h ≤ T) :
    ∀ fuel high, 0 < high → T < high * 2 ^ fuel →
      p (expand_high p high fuel) = false := by
  intro fuel
  induction fuel with
  | zero =>
    intro high hpos hT
    simp only [pow_zero, mul_one] at hT
    rw [expand_high]
    rw [← Bool.not_eq_true, hp]
    omega
  | succ fuel ih =>
    intro high hpos hT
    rw [expand_high]
    cases hph : p high with
    | false => simpa using hph
    | true =>
      simp only [if_pos rfl]
      apply ih (2 * high) (by omega)
      have : high * 2 ^ (fuel + 1) = 2 * high * 2 ^ fuel := by ring
      omega

/-- The binary-search loop, given enough fuel and a bracket containing the
tip, lands exactly on the tip. -/
theorem tip_search_go_eq_tip (p : ℕ → Bool) (T : ℕ)
    (hp : ∀ h, p h = true ↔ h ≤ T) :
    ∀ fuel low high, high - low ≤ fuel → low ≤ T → T ≤ high →
      tip_search_go p fuel low high = T := by
  intro fuel
  induction fuel with
  | zero =>
    intro low high hfuel hlow hhigh
    rw [tip_search_go]
    omega
  | succ fuel ih =>
    intro low high hfuel hlow hhigh
    by_cases hlt : low < high
    · cases hpm : p ((low + high + 1) / 2) with
      | true =>
        have hstep : tip_search_go p (fuel + 1) low high
            = tip_search_go p fuel ((low + high + 1) / 2) high := by
          rw [tip_search_go]
          simp [hlt, hpm]
        rw [hstep]
        have hm : (low + high + 1) / 2 ≤ T := (hp _).mp hpm
        exact ih _ _ (by omega) hm hhigh
      | false =>
        have hstep : tip_search_go p (fuel + 1) low high
            = tip_search_go p fuel low ((low + high + 1) / 2 - 1) := by
          rw [tip_search_go]
          simp [hlt, hpm]
        rw [hstep]
        have hm : T < (low + high + 1) / 2 := by
          by_contra hc
          rw [(hp _).mpr (by omega)] at hpm
          cases hpm
        exact ih _ _ (by omega) hlow (by omega)
    · rw [tip_search_go, if_neg hlt]
      omega

/-- Claim C6: the tip locator — bracket by geometric expansion, then binary
search with midpoint rounded up, `low` moving up on success and `high` down
otherwise until they meet — returns exactly the true tip `T` of any
monotonic existence predicate whose initial probe succeeds (given enough
expansion fuel to clear `T`), and "unknown" (`none`) when no valid height
was observed. -/
theorem tip_locator_returns_true_tip (p : ℕ → Bool) (T low0 high0 fuel : ℕ)
    (hp : ∀ h, p h = true ↔ h ≤ T) (hpos : 0 < high0)
    (hfuel : T < high0 * 2 ^ fuel) :
    (p low0 = true → locate_tip p low0 high0 fuel = some T) ∧
    (p low0 = false → locate_tip p low0 high0 fuel = none) := by
  constructor
  · intro hlow
    rw [locate_tip, if_pos hlow]
    have hhf : p (expand_high p high0 fuel) = false :=
      expand_high_above_tip p T hp fuel high0 hpos hfuel
    have hTlt : T < expand_high p high0 fuel := by
      have := (hp (expand_high p high0 fuel)).mpr
      by_contra hc
      rw [hhf] at this
      exact absurd (this (by omega)) (by simp)
    rw [tip_search, tip_search_go_eq_tip p T hp _ _ _ le_rfl ((hp low0).mp hlow) (by omega)]
  · intro hlow
    rw [locate_tip, if_neg (by simp [hlow])]

/-- Claim C6 (witness): for the predicate "height at most 5" with bracket
starting at [1, 1] and 3 rounds of expansion fuel, the locator returns 5. -/
theorem tip_locator_returns_true_tip_witness :
    locate_tip c6_pred 1 1 3 = some 5 :=
  (tip_locator_returns_true_tip c6_pred 5 1 1 3
    (fun h => by simp [c6_pred]) (by decide) (by decide)).1 (by decide)

/-- The ceiling branch never changes the floor latch. -/
theorem stepCeiling_floor (rate ceiling : ℚ) (s : Latch) :
    (stepCeiling rate ceiling s).1.floor_triggered = s.floor_triggered := by
  rw [stepCeiling]
  split_ifs <;> rfl

/-- The ceiling branch only emits ceiling notifications. -/
theorem stepCeiling_events (rate ceiling : ℚ) (s : Latch) (m : AlertMsg)
    (h : m ∈ (stepCeiling rate ceiling s).2) :
    m = .ceilingAlert ∨ m = .ceilingRecovery := by
  rw [stepCeiling] at h
  split_ifs at h <;> simp_all

/-- The floor branch never changes the ceiling latch. -/
theorem stepFloor_ceiling (rate floor : ℚ) (s : Latch) :
    (stepFloor rate floor s).1.ceiling_triggered = s.ceiling_triggered := by
  rw [stepFloor]
  split_ifs <;> rfl

/-- The floor branch only emits floor notifications. -/
theorem stepFloor_events (rate floor : ℚ) (s : Latch) (m : AlertMsg)
    (h : m ∈ (stepFloor rate floor s).2) :
    m = .floorAlert ∨ m = .floorRecovery := by
  rw [stepFloor] at h
  split_ifs at h <;> simp_all

/-- A floor alert fires only from an unlatched state, and latches it. -/
theorem stepFloor_alert (rate floor : ℚ) (s : Latch)
    (h : .floorAlert ∈ (stepFloor rate floor s).2) :
    s.floor_triggered = false ∧ (stepFloor rate floor s).1.floor_triggered = true := by
  rw [stepFloor] at h ⊢
  split_ifs at h ⊢ <;> simp_all

/-- The only way the floor latch drops is the recovery branch, which emits
the recovery notification. -/
theorem stepFloor_drop (rate floor : ℚ) (s : Latch)
    (h1 : s.floor_triggered = true)
    (h2 : (stepFloor rate floor s).1.floor_triggered = false) :
    .floorRecovery ∈ (stepFloor rate floor s).2 := by
  rw [stepFloor] at h2 ⊢
  split_ifs at h2 ⊢ <;> simp_all

/-- A ceiling alert fires only from an unlatched state, and latches it. -/
theorem stepCeiling_alert (rate ceiling : ℚ) (s : Latch)
    (h : .ceilingAlert ∈ (stepCeiling rate ceiling s).2) :
    s.ceiling_triggered = false ∧
      (stepCeiling rate ceiling s).1.ceiling_triggered = true := by
  rw [stepCeiling] at h ⊢
  split_ifs at h ⊢ <;> simp_all

/-- The only way the ceiling latch drops is the recovery branch. -/
theorem stepCeiling_drop (rate ceiling : ℚ) (s : Latch)
    (h1 : s.ceiling_triggered = true)
    (h2 : (stepCeiling rate ceiling s).1.ceiling_triggered = false) :
    .ceilingRecovery ∈ (stepCeiling rate ceiling s).2 := by
  rw [stepCeiling] at h2 ⊢
  split_ifs at h2 ⊢ <;> simp_all

/-- Unfolding of `cycleSeq` on an evaluated cycle. -/
theorem cycleSeq_succ_some (f : ℕ → Option (ℚ × ℚ × ℚ)) (n : ℕ)
    (rate floor ceiling : ℚ) (hf : f n = some (rate, floor, ceiling)) :
    cycleSeq f (n + 1) = (stepUser rate floor ceiling (cycleSeq f n)).1 := by
  rw [cycleSeq, hf]

/-- Unfolding of `cycleSeq` on a skipped cycle. -/
theorem cycleSeq_succ_none (f : ℕ → Option (ℚ × ℚ × ℚ)) (n : ℕ)
    (hf : f n = none) : cycleSeq f (n + 1) = cycleSeq f n := by
  rw [cycleSeq, hf]

/-- A floor alert in cycle `n` means the floor latch was down before the
cycle and up after it. -/
theorem cycle_floorAlert (f : ℕ → Option (ℚ × ℚ × ℚ)) (n : ℕ)
    (h : AlertMsg.floorAlert ∈ cycleEvents f n) :
    (cycleSeq f n).floor_triggered = false ∧
      (cycleSeq f (n + 1)).floor_triggered = true := by
  rw [cycleEvents] at h
  cases hf : f n with
  | none => rw [hf] at h; cases h
  | some obs =>
    obtain ⟨rate, floor, ceiling⟩ := obs
    rw [hf] at h
    simp only [stepUser] at h
    rcases List.mem_append.mp h with h' | h'
    · obtain ⟨hpre, hpost⟩ := stepFloor_alert rate floor (cycleSeq f n) h'
      refine ⟨hpre, ?_⟩
      rw [cycleSeq_succ_some f n rate floor ceiling hf]
      show (stepCeiling rate ceiling (stepFloor rate floor (cycleSeq f n)).1).1.floor_triggered
        = true
      rw [stepCeiling_floor]
      exact hpost
    · rcases stepCeiling_events _ _ _ _ h' with h'' | h'' <;> cases h''

/-- A floor latch that drops across cycle `n` emits the floor recovery in
cycle `n`. -/
theorem cycle_floor_drop (f : ℕ → Option (ℚ × ℚ × ℚ)) (n : ℕ)
    (h1 : (cycleSeq f n).floor_triggered = true)
    (h2 : (cycleSeq f (n + 1)).floor_triggered = false) :
    AlertMsg.floorRecovery ∈ cycleEvents f n := by
  cases hf : f n with
  | none =>
    rw [cycleSeq_succ_none f n hf, h1] at h2
    cases h2
  | some obs =>
    obtain ⟨rate, floor, ceiling⟩ := obs
    rw [cycleSeq_succ_some f n rate floor ceiling hf] at h2
    rw [cycleEvents, hf]
    have h2' : (stepFloor rate floor (cycleSeq f n)).1.floor_triggered = false := by
      rw [← stepCeiling_floor rate ceiling (stepFloor rate floor (cycleSeq f n)).1]
      exact h2
    simp only [stepUser]
    exact List.mem_append.mpr (Or.inl (stepFloor_drop rate floor (cycleSeq f n) h1 h2'))

/-- A ceiling alert in cycle `n` means the ceiling latch was down before the
cycle and up after it. -/
theorem cycle_ceilingAlert (f : ℕ → Option (ℚ × ℚ × ℚ)) (n : ℕ)
    (h : AlertMsg.ceilingAlert ∈ cycleEvents f n) :
    (cycleSeq f n).ceiling_triggered = false ∧
      (cycleSeq f (n + 1)).ceiling_triggered = true := by
  rw [cycleEvents] at h
  cases hf : f n with
  | none => rw [hf] at h; cases h
  | some obs =>
    obtain ⟨rate, floor, ceiling⟩ := obs
    rw [hf] at h
    simp only [stepUser] at h
    rcases List.mem_append.mp h with h' | h'
    · rcases stepFloor_events _ _ _ _ h' with h'' | h'' <;> cases h''
    · obtain ⟨hpre, hpost⟩ := stepCeiling_alert rate ceiling _ h'
      rw [stepFloor_ceiling] at hpre
      refine ⟨hpre, ?_⟩
      rw [cycleSeq_succ_some f n rate floor ceiling hf]
      exact hpost

/-- A ceiling latch that drops across cycle `n` emits the normalisation
notice in cycle `n`. -/
theorem cycle_ceiling_drop (f : ℕ → Option (ℚ × ℚ × ℚ)) (n : ℕ)
    (h1 : (cycleSeq f n).ceiling_triggered = true)
    (h2 : (cycleSeq f (n + 1)).ceiling_triggered = false) :
    AlertMsg.ceilingRecovery ∈ cycleEvents f n := by
  cases hf : f n with
  | none =>
    rw [cycleSeq_succ_none f n hf, h1] at h2
    cases h2
  | some obs =>
    obtain ⟨rate, floor, ceiling⟩ := obs
    rw [cycleSeq_succ_some f n rate floor ceiling hf] at h2
    rw [cycleEvents, hf]
    have h1' : (stepFloor rate floor (cycleSeq f n)).1.ceiling_triggered = true := by
      rw [stepFloor_ceiling]
      exact h1
    simp only [stepUser]
    exact List.mem_append.mpr (Or.inr (stepCeiling_drop rate ceiling _ h1' h2))

/-- A boolean trajectory that is up at `i` and down at `j ≥ i` crosses
downward somewhere in between. -/
theorem latch_crossing (g : ℕ → Bool) (i : ℕ) (hi : g i = true) :
    ∀ j, i ≤ j → g j = false →
      ∃ k, i ≤ k ∧ k < j ∧ g k = true ∧ g (k + 1) = false := by
  intro j
  induction j with
  | zero =>
    intro hij hgj
    have h0 : i = 0 := by omega
    rw [h0, hgj] at hi
    cases hi
  | succ j ih =>
    intro hij hgj
    have hine : i ≠ j + 1 := by
      intro he
      rw [he, hgj] at hi
      cases hi
    have hij' : i ≤ j := by omega
    cases hgjj : g j with
    | true => exact ⟨j, hij', by omega, hgjj, hgj⟩
    | false =>
      obtain ⟨k, hk1, hk2, hk3, hk4⟩ := ih hij' hgjj
      exact ⟨k, hk1, by omega, hk3, hk4⟩

/-- Claim C1: for any sequence of evaluated cycles (proofrate and resolved
thresholds per cycle, `none` for cycles that skip the recipient), each latch
emits at most one degraded alert between consecutive recoveries: two floor
(resp. ceiling) alerts are always separated by a floor (resp. ceiling)
recovery. -/
theorem hysteresis_at_most_one_alert_between_recoveries
    (f : ℕ → Option (ℚ × ℚ × ℚ)) :
    (∀ i j, i < j → AlertMsg.floorAlert ∈ cycleEvents f i →
      AlertMsg.floorAlert ∈ cycleEvents f j →
      ∃ k, i < k ∧ k < j ∧ AlertMsg.floorRecovery ∈ cycleEvents f k) ∧
    (∀ i j, i < j → AlertMsg.ceilingAlert ∈ cycleEvents f i →
      AlertMsg.ceilingAlert ∈ cycleEvents f j →
      ∃ k, i < k ∧ k < j ∧ AlertMsg.ceilingRecovery ∈ cycleEvents f k) := by
  constructor
  · intro i j hij hi hj
    obtain ⟨k, hk1, hk2, hk3, hk4⟩ :=
      latch_crossing (fun n => (cycleSeq f n).floor_triggered) (i + 1)
        (cycle_floorAlert f i hi).2 j (by omega) (cycle_floorAlert f j hj).1
    exact ⟨k, by omega, by omega, cycle_floor_drop f k hk3 hk4⟩
  · intro i j hij hi hj
    obtain ⟨k, hk1, hk2, hk3, hk4⟩ :=
      latch_crossing (fun n => (cycleSeq f n).ceiling_triggered) (i + 1)
        (cycle_ceilingAlert f i hi).2 j (by omega) (cycle_ceilingAlert f j hj).1
    exact ⟨k, by omega, by omega, cycle_ceiling_drop f k hk3 hk4⟩

/-- Claim C1 (witness): on the sample stream `c1_samples` the floor alert at
cycle 0 and the one at cycle 2 are separated by a recovery. -/
theorem hysteresis_at_most_one_alert_between_recoveries_witness :
    ∃ k, 0 < k ∧ k < 2 ∧ AlertMsg.floorRecovery ∈ cycleEvents c1_samples k :=
  (hysteresis_at_most_one_alert_between_recoveries c1_samples).1 0 2
    (by decide) (by decide) (by decide)
